import Mathlib

/-!
Shallow embedding of the mnemosyne repository (server `app2.py`, device
`cam4.py`) and proofs about the behaviour its specification describes.

Server side: the SQLite table `content (id INTEGER PRIMARY KEY, image TEXT,
description TEXT, timestamp TEXT, deviceid TEXT)` is modelled as a
`List CapturedRecord`.  SQLite compares TEXT columns by a byte-wise
comparison of their UTF-8 encodings; since UTF-8 preserves code-point
order, this is the lexicographic order on the list of characters, which
`textLe` implements.  `INTEGER PRIMARY KEY` (no AUTOINCREMENT) assigns a
fresh rowid of `max(existing ids) + 1`, or `1` for an empty table, which
`nextRowId` implements.
-/

namespace Mnemosyne

/-- Byte-wise (code-point-wise) lexicographic `a <= b` on character lists,
the order SQLite uses for `TEXT` comparisons (`BETWEEN`, `ORDER BY`). -/
def textLe : List Char → List Char → Bool
  | [], _ => true
  | _ :: _, [] => false
  | a :: as, b :: bs =>
    if a.val.toNat < b.val.toNat then true
    else if b.val.toNat < a.val.toNat then false
    else textLe as bs

/-- SQLite TEXT comparison `a <= b` on strings. -/
def strLe (a b : String) : Bool := textLe a.data b.data

theorem textLe_cons (a b : Char) (as bs : List Char) :
    textLe (a :: as) (b :: bs) = true ↔
      (a.val.toNat < b.val.toNat ∨
        (a.val.toNat = b.val.toNat ∧ textLe as bs = true)) := by
  simp only [textLe]
  split_ifs with h1 h2
  · simp [h1]
  · constructor
    · intro h; cases h
    · intro h
      rcases h with h | ⟨h, _⟩
      · exact absurd h h1
      · omega
  · have he : a.val.toNat = b.val.toNat := by omega
    simp [he]

theorem textLe_total : ∀ as bs : List Char, textLe as bs = true ∨ textLe bs as = true
  | [], _ => Or.inl rfl
  | _ :: _, [] => Or.inr rfl
  | a :: as, b :: bs => by
    rcases Nat.lt_trichotomy a.val.toNat b.val.toNat with h | h | h
    · exact Or.inl ((textLe_cons a b as bs).mpr (Or.inl h))
    · rcases textLe_total as bs with h2 | h2
      · exact Or.inl ((textLe_cons a b as bs).mpr (Or.inr ⟨h, h2⟩))
      · exact Or.inr ((textLe_cons b a bs as).mpr (Or.inr ⟨h.symm, h2⟩))
    · exact Or.inr ((textLe_cons b a bs as).mpr (Or.inl h))

theorem textLe_trans :
    ∀ as bs cs : List Char,
      textLe as bs = true → textLe bs cs = true → textLe as cs = true
  | [], _, _ => fun _ _ => rfl
  | _ :: _, [], _ => fun h _ => by cases h
  | _ :: _, _ :: _, [] => fun _ h => by cases h
  | a :: as, b :: bs, c :: cs => by
    intro hab hbc
    rcases (textLe_cons a b as bs).mp hab with h1 | ⟨h1, h1r⟩ <;>
      rcases (textLe_cons b c bs cs).mp hbc with h2 | ⟨h2, h2r⟩
    · exact (textLe_cons a c as cs).mpr (Or.inl (Nat.lt_trans h1 h2))
    · exact (textLe_cons a c as cs).mpr (Or.inl (h2 ▸ h1))
    · exact (textLe_cons a c as cs).mpr (Or.inl (h1 ▸ h2))
    · exact (textLe_cons a c as cs).mpr
        (Or.inr ⟨h1.trans h2, textLe_trans as bs cs h1r h2r⟩)

/-- One row of the `content` table
(`id INTEGER PRIMARY KEY, image TEXT, description TEXT, timestamp TEXT, deviceid TEXT`). -/
structure CapturedRecord where
  id : Nat
  image : String
  description : String
  timestamp : String
  deviceid : String
deriving DecidableEq

/-- `ORDER BY timestamp` comparison between two rows. -/
def recLe (x y : CapturedRecord) : Prop := strLe x.timestamp y.timestamp = true

instance : DecidableRel recLe := fun _ _ => inferInstanceAs (Decidable (_ = true))

instance : IsTotal CapturedRecord recLe := ⟨fun x y => textLe_total x.timestamp.data y.timestamp.data⟩

instance : IsTrans CapturedRecord recLe :=
  ⟨fun x y z => textLe_trans x.timestamp.data y.timestamp.data z.timestamp.data⟩

/-- The `WHERE timestamp BETWEEN a AND b` predicate: both bounds inclusive,
SQLite TEXT comparison. -/
def inRange (a b : String) (r : CapturedRecord) : Bool :=
  strLe a r.timestamp && strLe r.timestamp b

/-- `SELECT * FROM content WHERE timestamp BETWEEN ? AND ? ORDER BY timestamp`,
the range scan used by both the `/contents` POST render and `/query`
(`app2.py` lines 291 and 370): keep the rows in `[a, b]` and sort them
ascending by `timestamp`. -/
def listRange (db : List CapturedRecord) (a b : String) : List CapturedRecord :=
  List.insertionSort recLe (db.filter (inRange a b))

/-- C2: the range query returns exactly the records with
`a <= timestamp <= b` (both bounds inclusive, so membership in the result
is membership in the store plus the two bound checks), sorted ascending by
timestamp, and is empty when no record qualifies, in particular over the
empty store. -/
theorem listRange_range_semantics (db : List CapturedRecord) (a b : String) :
    (∀ r, r ∈ listRange db a b ↔
        r ∈ db ∧ strLe a r.timestamp = true ∧ strLe r.timestamp b = true)
    ∧ List.Sorted recLe (listRange db a b)
    ∧ ((∀ r ∈ db, inRange a b r = false) → listRange db a b = [])
    ∧ listRange ([] : List CapturedRecord) a b = [] := by
  refine ⟨fun r => ?_, List.sorted_insertionSort recLe _, fun h => ?_, rfl⟩
  · rw [listRange, (List.perm_insertionSort recLe _).mem_iff, List.mem_filter,
      inRange, Bool.and_eq_true]
  · have hf : db.filter (inRange a b) = [] := by
      rw [List.filter_eq_nil_iff]
      intro r hr
      simp [h r hr]
    rw [listRange, hf]
    rfl

/-- C2 witness: concrete instances of the range-query semantics, obtained
from `listRange_range_semantics`. -/
theorem listRange_range_semantics_witness :
    (⟨1, "img", "desc", "2024-03-01 10:00:00", "dev"⟩ : CapturedRecord) ∈
        listRange [⟨1, "img", "desc", "2024-03-01 10:00:00", "dev"⟩]
          "2024-03-01 00:00:00" "2024-03-02 00:00:00"
    ∧ listRange [⟨1, "img", "desc", "2024-03-01 10:00:00", "dev"⟩]
        "2024-03-02 00:00:00" "2024-03-03 00:00:00" = [] := by
  constructor
  · exact ((listRange_range_semantics
      [⟨1, "img", "desc", "2024-03-01 10:00:00", "dev"⟩]
      "2024-03-01 00:00:00" "2024-03-02 00:00:00").1 _).mpr
      ⟨by decide, by decide, by decide⟩
  · exact (listRange_range_semantics
      [⟨1, "img", "desc", "2024-03-01 10:00:00", "dev"⟩]
      "2024-03-02 00:00:00" "2024-03-03 00:00:00").2.2.1 (by decide)

/-- Ids currently present in the table. -/
def tableIds (db : List CapturedRecord) : List Nat := db.map (fun r => r.id)

/-- SQLite rowid assignment for an `INTEGER PRIMARY KEY` column declared
without `AUTOINCREMENT` (as in `init_db`, `app2.py` lines 164-176): the new
row gets one more than the largest rowid currently in the table, and `1`
when the table is empty.  Deleted rowids are not remembered. -/
def nextRowId (db : List CapturedRecord) : Nat := (tableIds db).foldr max 0 + 1

theorem mem_le_foldr_max : ∀ (l : List Nat), ∀ j ∈ l, j ≤ l.foldr max 0
  | [], j, h => absurd h (List.not_mem_nil j)
  | a :: l, j, h => by
    rcases List.mem_cons.mp h with rfl | h
    · exact Nat.le_max_left _ _
    · exact le_trans (mem_le_foldr_max l j h) (Nat.le_max_right _ _)

/-- One operation on the content table: an insert (from `add_content`) or a
delete by id (from the `/contents` POST handler). -/
inductive StoreOp where
  | ins (image description timestamp deviceid : String)
  | del (id : Nat)

/-- Apply one operation: an insert appends a row with the SQLite-assigned
rowid and reports that id; a delete removes every row with the given id and
reports nothing. -/
def applyOp (db : List CapturedRecord) : StoreOp → List CapturedRecord × Option Nat
  | .ins img d ts dev => (db ++ [⟨nextRowId db, img, d, ts, dev⟩], some (nextRowId db))
  | .del i => (db.filter (fun r => r.id != i), none)

/-- Run a sequence of operations from a starting table, collecting the ids
assigned by the inserts in order. -/
def runOps (db : List CapturedRecord) : List StoreOp → List CapturedRecord × List Nat
  | [] => (db, [])
  | op :: ops =>
      let step := applyOp db op
      let rest := runOps step.1 ops
      (rest.1, step.2.toList ++ rest.2)

theorem applyOp_insert_id_gt (db : List CapturedRecord) (op : StoreOp) (i : Nat)
    (h : (applyOp db op).2 = some i) : ∀ j ∈ tableIds db, j < i := by
  cases op with
  | ins img d ts dev =>
      intro j hj
      have hi : i = nextRowId db := by
        simpa [applyOp] using h.symm
      have := mem_le_foldr_max (tableIds db) j hj
      rw [hi, nextRowId]
      omega
  | del k => simp [applyOp] at h

/-- At every step of an operation sequence, any id an insert assigns is
strictly greater than every id present in the table at that moment. -/
def insertsExceedTable : List CapturedRecord → List StoreOp → Prop
  | _, [] => True
  | db, op :: ops =>
      (∀ i, (applyOp db op).2 = some i → ∀ j ∈ tableIds db, j < i)
      ∧ insertsExceedTable (applyOp db op).1 ops

/-- C6 counterexample: after `insert, insert, delete 2, insert` the store
assigns the ids `1, 2, 2` — the id `2`, assigned once and then freed by the
delete of its row, is assigned again (SQLite `INTEGER PRIMARY KEY` without
`AUTOINCREMENT` reuses the maximum rowid after it is deleted), so the
assigned-id sequence is not duplicate-free. -/
theorem runOps_reuses_id_cex :
    (runOps [] [StoreOp.ins "i1" "d1" "t1" "v1", StoreOp.ins "i2" "d2" "t2" "v2",
      StoreOp.del 2, StoreOp.ins "i3" "d3" "t3" "v3"]).2 = [1, 2, 2]
    ∧ ¬ (runOps [] [StoreOp.ins "i1" "d1" "t1" "v1", StoreOp.ins "i2" "d2" "t2" "v2",
      StoreOp.del 2, StoreOp.ins "i3" "d3" "t3" "v3"]).2.Nodup := by
  constructor
  · rfl
  · decide

/-- C6 amended: over every sequence of inserts and deletes, each successful
insert is assigned an id strictly greater than every id present in the
table at that moment (so ids are unique among live rows, and strictly
increase while no delete intervenes); but after the row holding the largest
id is deleted, that id is assigned again. -/
theorem runOps_inserts_exceed_table :
    ∀ (ops : List StoreOp) (db : List CapturedRecord), insertsExceedTable db ops
  | [], _ => trivial
  | op :: ops, db =>
      ⟨fun i h => applyOp_insert_id_gt db op i h,
        runOps_inserts_exceed_table ops (applyOp db op).1⟩

/-- Result of the server-side `analyze_image` call made by `add_content`:
`raised` models the HTTP request inside `analyze_image` raising (a
transport error, which `add_content` does not catch, so the exception
escapes the handler); `returned d` models `response.json()` coming back,
with `d` the message content of the first choice of the response JSON when
that chain of lookups succeeds and `none` when it fails (e.g. an API error
body), which the bare `except` in `add_content` catches. -/
inductive ProviderOutcome where
  | raised
  | returned (description : Option String)
deriving DecidableEq

/-- The JSON body of a `POST /add_content` request: `image` and
`description` are required top-level fields, `deviceid` is read with
`content_data.get` with the default `Unknown`, so it may be absent. -/
structure AddRequest where
  image : String
  description : String
  deviceid : Option String
deriving DecidableEq

structure HttpResponse where
  status : Nat
  message : String
deriving DecidableEq

/-- Result of one `POST /add_content` request: the table afterwards, the
HTTP response (`none` when an exception escaped the handler, which Flask
turns into a 500 error response, not a 201), and how many times the handler
invoked the vision provider `analyze_image`. -/
structure AddOutcome where
  db : List CapturedRecord
  response : Option HttpResponse
  providerCalls : Nat
deriving DecidableEq

/-- `add_content` (`app2.py` lines 203-234).  The handler reads `image` and
always calls `analyze_image(image)` — the line reading the uploaded
`description` field is commented out in the source, so that field is never
read.  If the description cannot be extracted from the provider response
the handler returns 201 `"No Content added"` with no insert; if the
provider call raises, the exception escapes the handler; otherwise it
inserts a row with the provider description, the server-side timestamp
`now` and the `deviceid` field (defaulting to `Unknown`), and returns 201
`"Content added successfully"`. -/
def add_content (db : List CapturedRecord) (req : AddRequest)
    (provider : String → ProviderOutcome) (now : String) : AddOutcome :=
  match provider req.image with
  | .raised => ⟨db, none, 1⟩
  | .returned none => ⟨db, some ⟨201, "No Content added"⟩, 1⟩
  | .returned (some description) =>
      ⟨db ++ [⟨nextRowId db, req.image, description, now, req.deviceid.getD "Unknown"⟩],
        some ⟨201, "Content added successfully"⟩, 1⟩

/-- C1 counterexample: a `POST /add_content` with an empty `description`
field whose provider call fails by raising (a transport error inside
`analyze_image`) leaves the table unchanged but produces no HTTP response
at all — the exception escapes the handler (Flask answers with a 500 error
page), not the claimed 201 `{"message": "No Content added"}`. -/
theorem add_content_raise_not_201_cex :
    (⟨"img", "", some "10.0.0.5"⟩ : AddRequest).description = ""
    ∧ add_content [] ⟨"img", "", some "10.0.0.5"⟩ (fun _ => ProviderOutcome.raised)
        "2024-01-01 00:00:00" = ⟨[], none, 1⟩ := by
  exact ⟨rfl, rfl⟩

/-- C1 amended: for a `POST /add_content` with an empty `description`
field, if the provider responds but no description can be extracted from
its body, no row is written and the response is 201
`{"message": "No Content added"}`; if the provider call itself raises, no
row is written and the exception escapes the handler (an HTTP 500 error,
not a 201); on success the row is written and the response is 201
`{"message": "Content added successfully"}`. -/
theorem add_content_empty_description (db : List CapturedRecord)
    (req : AddRequest) (provider : String → ProviderOutcome) (now : String)
    (hd : req.description = "") :
    (provider req.image = ProviderOutcome.returned none →
        add_content db req provider now = ⟨db, some ⟨201, "No Content added"⟩, 1⟩)
    ∧ (provider req.image = ProviderOutcome.raised →
        add_content db req provider now = ⟨db, none, 1⟩)
    ∧ (∀ d, provider req.image = ProviderOutcome.returned (some d) →
        add_content db req provider now =
          ⟨db ++ [⟨nextRowId db, req.image, d, now, req.deviceid.getD "Unknown"⟩],
            some ⟨201, "Content added successfully"⟩, 1⟩) := by
  refine ⟨fun h => ?_, fun h => ?_, fun d h => ?_⟩ <;> simp [add_content, h]

/-- C1 witness: the amended behaviour at concrete inputs — a failing
provider response leaves the empty table empty with the 201
`"No Content added"` answer, and a successful one inserts the row. -/
theorem add_content_empty_description_witness :
    add_content [] ⟨"img", "", none⟩ (fun _ => ProviderOutcome.returned none)
        "2024-01-01 00:00:00" = ⟨[], some ⟨201, "No Content added"⟩, 1⟩
    ∧ add_content [] ⟨"img", "", none⟩ (fun _ => ProviderOutcome.returned (some "a cat"))
        "2024-01-01 00:00:00" =
      ⟨[⟨1, "img", "a cat", "2024-01-01 00:00:00", "Unknown"⟩],
        some ⟨201, "Content added successfully"⟩, 1⟩ := by
  constructor
  · exact (add_content_empty_description [] ⟨"img", "", none⟩
      (fun _ => ProviderOutcome.returned none) "2024-01-01 00:00:00" rfl).1 rfl
  · exact (add_content_empty_description [] ⟨"img", "", none⟩
      (fun _ => ProviderOutcome.returned (some "a cat")) "2024-01-01 00:00:00" rfl).2.2
      "a cat" rfl

/-- C3 counterexample: an upload carrying the non-empty description
`"a dog"` still triggers exactly one server-side provider call, and the
stored row keeps the provider output `"a cat"`, not the supplied text —
the handler never reads the uploaded `description` field. -/
theorem add_content_ignores_supplied_description_cex :
    (add_content [] ⟨"img", "a dog", some "10.0.0.5"⟩
        (fun _ => ProviderOutcome.returned (some "a cat")) "2024-01-01 00:00:00").providerCalls = 1
    ∧ (add_content [] ⟨"img", "a dog", some "10.0.0.5"⟩
        (fun _ => ProviderOutcome.returned (some "a cat")) "2024-01-01 00:00:00").db
      = [⟨1, "img", "a cat", "2024-01-01 00:00:00", "10.0.0.5"⟩]
    ∧ "a cat" ≠ "a dog" := by
  refine ⟨rfl, rfl, by decide⟩

/-- C3 amended: the server calls its vision provider exactly once on every
upload, whatever the uploaded `description` field holds, and the
description it persists is always the provider output — the supplied
description is never persisted. -/
theorem add_content_always_calls_provider (db : List CapturedRecord)
    (req : AddRequest) (provider : String → ProviderOutcome) (now : String) :
    (add_content db req provider now).providerCalls = 1
    ∧ (∀ d, provider req.image = ProviderOutcome.returned (some d) →
        (add_content db req provider now).db
          = db ++ [⟨nextRowId db, req.image, d, now, req.deviceid.getD "Unknown"⟩]) := by
  constructor
  · rcases h : provider req.image with _ | d
    · simp [add_content, h]
    · cases d <;> simp [add_content, h]
  · intro d h
    simp [add_content, h]

/-- C3 witness: the amended behaviour at a concrete input with a non-empty
supplied description. -/
theorem add_content_always_calls_provider_witness :
    (add_content [] ⟨"img", "a dog", none⟩
        (fun _ => ProviderOutcome.returned (some "a cat")) "2024-01-01 00:00:00").providerCalls = 1
    ∧ (add_content [] ⟨"img", "a dog", none⟩
        (fun _ => ProviderOutcome.returned (some "a cat")) "2024-01-01 00:00:00").db
      = [⟨1, "img", "a cat", "2024-01-01 00:00:00", "Unknown"⟩] := by
  have h := add_content_always_calls_provider [] ⟨"img", "a dog", none⟩
    (fun _ => ProviderOutcome.returned (some "a cat")) "2024-01-01 00:00:00"
  exact ⟨h.1, h.2 "a cat" rfl⟩

/-- One turn of a chat-completion request. -/
structure ChatMessage where
  role : String
  content : String
deriving DecidableEq

/-- One chat-completion request, as built by `ask_gpt4`. -/
structure ChatRequest where
  model : String
  messages : List ChatMessage
deriving DecidableEq

/-- The fixed system instruction `ask_gpt4` sends (`app2.py` line 93). -/
def systemInstruction : String :=
  "You are provided a set of timestamps followed by descriptions of what was observed at that time. Please infer the answer to the question based on the descriptions provided."

/-- `ask_gpt4` (`app2.py` lines 67-100): build one chat-completion request
with three turns — the fixed system instruction, the question as a user
turn, and the entries text as a second user turn — send it to the chat
endpoint `llm`, and return the message content of its first choice
verbatim, together with the request that was issued. -/
def ask_gpt4 (modelName : String) (llm : ChatRequest → String)
    (question entries_text : String) : ChatRequest × String :=
  let req : ChatRequest :=
    ⟨modelName, [⟨"system", systemInstruction⟩, ⟨"user", question⟩, ⟨"user", entries_text⟩]⟩
  (req, llm req)

/-- The rendering of the matched rows used by `/query` (`app2.py` line
375): each row as `"<timestamp>: <description>"`, joined by newlines. -/
def entriesTextOf (rows : List CapturedRecord) : String :=
  String.intercalate "\n" (rows.map (fun r => r.timestamp ++ ": " ++ r.description))

/-- Result of one `POST /query` request: every chat-completion request the
handler issued, the model answer embedded verbatim in the rendered page,
and the entries text embedded in the page. -/
structure QueryOutcome where
  calls : List ChatRequest
  response : String
  entries : String
deriving DecidableEq

/-- The `/query` POST handler (`app2.py` lines 356-382): combine the date
and time form fields into `"<date> <time>"` bounds, fetch the rows in that
timestamp range ordered by timestamp, render them as newline-joined
`"<timestamp>: <description>"` lines, issue one `ask_gpt4` call and render
the page with its answer. -/
def query (db : List CapturedRecord) (modelName : String)
    (llm : ChatRequest → String)
    (question start_date start_time end_date end_time : String) : QueryOutcome :=
  let start_datetime := start_date ++ " " ++ start_time
  let end_datetime := end_date ++ " " ++ end_time
  let entries := listRange db start_datetime end_datetime
  let entries_text := entriesTextOf entries
  let result := ask_gpt4 modelName llm question entries_text
  ⟨[result.1], result.2, entries_text⟩

/-- C7: `/query` issues exactly one chat-completion call, whose three turns
are the fixed system instruction, the verbatim question and the entries
text; the entries text renders the rows matching the range ascending by
timestamp as newline-joined `"<timestamp>: <description>"` lines, is the
empty string when no row matches, and the model answer is returned
verbatim. -/
theorem query_semantics (db : List CapturedRecord) (modelName : String)
    (llm : ChatRequest → String)
    (question start_date start_time end_date end_time : String) :
    (query db modelName llm question start_date start_time end_date end_time).calls
        = [⟨modelName, [⟨"system", systemInstruction⟩, ⟨"user", question⟩,
            ⟨"user", (query db modelName llm question start_date start_time end_date end_time).entries⟩]⟩]
    ∧ (query db modelName llm question start_date start_time end_date end_time).entries
        = entriesTextOf (listRange db (start_date ++ " " ++ start_time) (end_date ++ " " ++ end_time))
    ∧ List.Sorted recLe (listRange db (start_date ++ " " ++ start_time) (end_date ++ " " ++ end_time))
    ∧ (query db modelName llm question start_date start_time end_date end_time).response
        = llm ⟨modelName, [⟨"system", systemInstruction⟩, ⟨"user", question⟩,
            ⟨"user", (query db modelName llm question start_date start_time end_date end_time).entries⟩]⟩
    ∧ (listRange db (start_date ++ " " ++ start_time) (end_date ++ " " ++ end_time) = [] →
        (query db modelName llm question start_date start_time end_date end_time).entries = "") := by
  refine ⟨rfl, rfl, List.sorted_insertionSort recLe _, rfl, fun h => ?_⟩
  simp only [query, h, entriesTextOf, List.map_nil]
  decide

/-- C7 witness: the query semantics at a concrete store, range and chat
endpoint, including the empty-range case producing `entriesText = ""`. -/
theorem query_semantics_witness :
    (query [⟨1, "img", "a cat", "2024-03-01 10:00:00", "dev"⟩] "gpt-4o"
        (fun req => String.intercalate "|" (req.messages.map (fun m => m.content)))
        "what happened?" "2024-03-05" "00:00" "2024-03-06" "00:00").entries = "" := by
  have h := query_semantics [⟨1, "img", "a cat", "2024-03-01 10:00:00", "dev"⟩] "gpt-4o"
    (fun req => String.intercalate "|" (req.messages.map (fun m => m.content)))
    "what happened?" "2024-03-05" "00:00" "2024-03-06" "00:00"
  exact h.2.2.2.2 (by decide)

/-- The date/time and selection form fields of a `POST /contents` request:
reading an absent field from `request.form` raises a 400 error, so each
field is modelled as optional here; `content_id` is a repeated checkbox
field read with `getlist`. -/
structure ContentsForm where
  start_date : Option String
  start_time : Option String
  end_date : Option String
  end_time : Option String
  content_ids : List Nat
deriving DecidableEq

/-- The `/contents` POST handler (`app2.py` lines 261-295): read the four
date/time form fields (raising a `BadRequestKeyError`, modelled as
`Except.error ()`, before anything else when one is absent), delete every
row whose id is listed in `content_id`, and render the rows of the
`timestamp BETWEEN`-filtered scan — after a POST `start_date` is never
`None`, so the full-scan branch is unreachable.  The pair returned is the
table afterwards and the rendered row list (or the error). -/
def manage_contents_post (db : List CapturedRecord) (form : ContentsForm) :
    List CapturedRecord × Except Unit (List CapturedRecord) :=
  match form.start_date, form.start_time, form.end_date, form.end_time with
  | some sd, some st, some ed, some et =>
      let db' := db.filter (fun r => !(form.content_ids.contains r.id))
      (db', Except.ok (listRange db' (sd ++ " " ++ st) (ed ++ " " ++ et)))
  | _, _, _, _ => (db, Except.error ())

/-- The `/contents` GET handler renders the full scan
(`SELECT * FROM content`) in storage order. -/
def manage_contents_get (db : List CapturedRecord) : List CapturedRecord := db

/-- C8 counterexample: a `POST /contents` without the date form fields and
with `content_id = [1]` does not delete row 1 and renders nothing — the
handler reads the `start_date` form field before any deletion, which
raises a 400 error when the field is absent.  The claimed
delete-then-render-full-set behaviour does not happen. -/
theorem manage_contents_post_missing_dates_cex :
    manage_contents_post [⟨1, "img", "a cat", "2024-03-01 10:00:00", "dev"⟩]
        ⟨none, none, none, none, [1]⟩
      = ([⟨1, "img", "a cat", "2024-03-01 10:00:00", "dev"⟩], Except.error ())
    ∧ ([⟨1, "img", "a cat", "2024-03-01 10:00:00", "dev"⟩] : List CapturedRecord) ≠ [] := by
  exact ⟨rfl, by decide⟩

/-- C8 amended: the four date/time form fields are mandatory on
`POST /contents` — when they are all present the listed `content_id` rows
are deleted first and the response always renders the date-filtered scan of
the remaining rows (never the full set); when any of them is absent the
request fails with a form-field error before any deletion; the full set is
rendered only by GET. -/
theorem manage_contents_post_semantics (db : List CapturedRecord)
    (form : ContentsForm) :
    (∀ sd st ed et, form.start_date = some sd → form.start_time = some st →
        form.end_date = some ed → form.end_time = some et →
        manage_contents_post db form =
          (db.filter (fun r => !(form.content_ids.contains r.id)),
            Except.ok (listRange (db.filter (fun r => !(form.content_ids.contains r.id)))
              (sd ++ " " ++ st) (ed ++ " " ++ et))))
    ∧ ((form.start_date = none ∨ form.start_time = none ∨
          form.end_date = none ∨ form.end_time = none) →
        manage_contents_post db form = (db, Except.error ()))
    ∧ manage_contents_get db = db := by
  refine ⟨fun sd st ed et h1 h2 h3 h4 => ?_, fun h => ?_, rfl⟩
  · simp only [manage_contents_post, h1, h2, h3, h4]
  · obtain ⟨fsd, fst, fed, fet, ids⟩ := form
    cases fsd <;> cases fst <;> cases fed <;> cases fet <;>
      simp_all [manage_contents_post]

/-- C8 witness: the amended behaviour at a concrete table and form — the
selected row is deleted and the filtered scan of the remainder is rendered;
with a missing date field the table is untouched and the request errors. -/
theorem manage_contents_post_semantics_witness :
    manage_contents_post
        [⟨1, "img", "a cat", "2024-03-01 10:00:00", "dev"⟩,
          ⟨2, "img2", "a dog", "2024-03-01 11:00:00", "dev"⟩]
        ⟨some "2024-03-01", some "00:00", some "2024-03-02", some "00:00", [1]⟩
      = ([⟨2, "img2", "a dog", "2024-03-01 11:00:00", "dev"⟩],
          Except.ok [⟨2, "img2", "a dog", "2024-03-01 11:00:00", "dev"⟩])
    ∧ manage_contents_post [⟨1, "img", "a cat", "2024-03-01 10:00:00", "dev"⟩]
        ⟨some "2024-03-01", none, some "2024-03-02", some "00:00", [1]⟩
      = ([⟨1, "img", "a cat", "2024-03-01 10:00:00", "dev"⟩], Except.error ()) := by
  constructor
  · have h := (manage_contents_post_semantics
      [⟨1, "img", "a cat", "2024-03-01 10:00:00", "dev"⟩,
        ⟨2, "img2", "a dog", "2024-03-01 11:00:00", "dev"⟩]
      ⟨some "2024-03-01", some "00:00", some "2024-03-02", some "00:00", [1]⟩).1
      "2024-03-01" "00:00" "2024-03-02" "00:00" rfl rfl rfl rfl
    rw [h]
    rfl
  · exact (manage_contents_post_semantics
      [⟨1, "img", "a cat", "2024-03-01 10:00:00", "dev"⟩]
      ⟨some "2024-03-01", none, some "2024-03-02", some "00:00", [1]⟩).2.1
      (Or.inr (Or.inl rfl))

/-- The GPIO events the device reacts to: the OpenAI capture button
(`buttonCallback`), the shutdown button (`buttonCallback2`) and the Google
capture button (`buttonCallback3`). -/
inductive DeviceEvent where
  | captureButton
  | shutdownButton
  | googleButton
deriving DecidableEq

/-- Effect of one button event on the global `shutdownCounter`
(`cam4.py` lines 102-165): both capture callbacks reset the counter to the
configured maximum; the shutdown callback decrements it and issues
`sudo shutdown now` exactly when the decremented counter equals zero.
Returns the new counter and whether a shutdown request was issued. -/
def shutdownStep (maxC c : Int) : DeviceEvent → Int × Bool
  | DeviceEvent.captureButton => (maxC, false)
  | DeviceEvent.googleButton => (maxC, false)
  | DeviceEvent.shutdownButton => (c - 1, c - 1 == 0)

/-- Run a trace of button events through the shutdown counter, collecting
per event whether an OS shutdown request was issued. -/
def runShutdownCounter (maxC c : Int) : List DeviceEvent → List Bool
  | [] => []
  | e :: es =>
      let step := shutdownStep maxC c e
      step.2 :: runShutdownCounter maxC step.1 es

theorem runShutdownCounter_nonpos :
    ∀ (n : Nat) (maxC c : Int), c ≤ 0 →
      runShutdownCounter maxC c (List.replicate n DeviceEvent.shutdownButton)
        = List.replicate n false
  | 0, _, _, _ => rfl
  | n + 1, maxC, c, h => by
    simp only [List.replicate_succ, runShutdownCounter, shutdownStep]
    have h1 : (c - 1 == 0) = false := by
      rw [beq_eq_false_iff_ne]
      omega
    rw [h1, runShutdownCounter_nonpos n maxC (c - 1) (by omega)]

/-- C4: with the counter maximum configured to 3, a trace of three shutdown
events with no intervening capture event issues exactly one shutdown
request, on the third event — and any longer uninterrupted run of shutdown
events still issues it only on the third, never again; a capture event
between the first and second shutdown press resets the counter, so four
shutdown events in total are then needed, the request firing on the
fourth. -/
theorem shutdown_counter_terminal :
    runShutdownCounter 3 3 (List.replicate 3 DeviceEvent.shutdownButton)
        = [false, false, true]
    ∧ (∀ n : Nat, runShutdownCounter 3 3
        (List.replicate (n + 3) DeviceEvent.shutdownButton)
          = false :: false :: true :: List.replicate n false)
    ∧ runShutdownCounter 3 3 [DeviceEvent.shutdownButton, DeviceEvent.captureButton,
        DeviceEvent.shutdownButton, DeviceEvent.shutdownButton, DeviceEvent.shutdownButton]
        = [false, false, false, false, true] := by
  refine ⟨by decide, fun n => ?_, by decide⟩
  have hrep : List.replicate (n + 3) DeviceEvent.shutdownButton
      = DeviceEvent.shutdownButton :: DeviceEvent.shutdownButton ::
          DeviceEvent.shutdownButton :: List.replicate n DeviceEvent.shutdownButton := rfl
  rw [hrep]
  simp only [runShutdownCounter, shutdownStep]
  rw [runShutdownCounter_nonpos n 3 (3 - 1 - 1 - 1) (by omega)]
  rfl

/-- One IPv4 route as printed by `ip -j -4 route`: the interface name and
the optional preferred source address. -/
structure Route where
  dev : String
  prefsrc : Option String
deriving DecidableEq

/-- The Python condition `r.get("dev") == "wlan0" and r.get("prefsrc")` in
`getIP`: the route is on `wlan0` and carries a truthy (present and
non-empty) `prefsrc`. -/
def routeMatches (r : Route) : Bool :=
  r.dev == "wlan0" && r.prefsrc.getD "" != ""

/-- `getIP` (`cam4.py` lines 460-498): scan the routing table, remembering
the `prefsrc` of each matching route (the loop keeps going, so the last
match wins); the global `ip` keeps its previous value (initially `""`)
when no route matches.  Returns the new value of `ip`, which `getIP` then
assigns to `devId` unconditionally. -/
def getIP (routes : List Route) (ip0 : String) : String :=
  routes.foldl (fun acc r => if routeMatches r then r.prefsrc.getD "" else acc) ip0

theorem getIP_no_match :
    ∀ (routes : List Route) (ip0 : String),
      (∀ r ∈ routes, routeMatches r = false) → getIP routes ip0 = ip0
  | [], _, _ => rfl
  | r :: rs, ip0, h => by
    have h1 := h r (List.mem_cons_self r rs)
    show List.foldl _ (if routeMatches r then r.prefsrc.getD "" else ip0) rs = ip0
    rw [h1]
    exact getIP_no_match rs ip0 (fun x hx => h x (List.mem_cons_of_mem r hx))

/-- The mutable process-global state of `cam4.py`: the cached `picam2`
handle, the `firstTime` flag, and the `devId` and `ip` strings. -/
structure DeviceState where
  picam2 : Option Unit
  firstTime : Nat
  devId : String
  ip : String
deriving DecidableEq

/-- The globals as initialised at import time (`cam4.py` lines 76-82):
no camera handle, `firstTime = 0`, `devId` set to the configured default,
`ip = ""`. -/
def initialDeviceState (default_device_id : String) : DeviceState :=
  ⟨none, 0, default_device_id, ""⟩

/-- External effects of one `capture_image_and_save_to_base64` call: the
routing table a first-run `getIP` would read, the outcome of the
`Picamera2()` constructor when the handle is absent, and the outcome of the
configure/start/capture/encode chain — either the base64 string of the
captured frame or a raised exception. -/
structure CaptureEnv where
  routes : List Route
  initResult : Except Unit Unit
  camResult : Except Unit String

/-- The part of `capture_image_and_save_to_base64` that runs once the
camera handle exists: first-run IP detection (which unconditionally
overwrites `devId` with the detected `ip`), then the capture chain. -/
def captureAfterInit (st : DeviceState) (env : CaptureEnv) :
    DeviceState × Except Unit String :=
  let st2 := if st.firstTime = 0 then
      let newIp := getIP env.routes st.ip
      { st with ip := newIp, devId := newIp, firstTime := 1 }
    else st
  (st2, env.camResult)

/-- `capture_image_and_save_to_base64` (`cam4.py` lines 302-391): create
the `Picamera2` handle if it is absent (a raise in the constructor leaves
the globals untouched), run `getIP` on the first call, then capture and
base64-encode one frame.  Returns the globals afterwards and the base64
string, or the exception — this function catches nothing. -/
def capture_image_and_save_to_base64 (st : DeviceState) (env : CaptureEnv) :
    DeviceState × Except Unit String :=
  match st.picam2 with
  | none =>
      match env.initResult with
      | Except.error e => (st, Except.error e)
      | Except.ok _ => captureAfterInit { st with picam2 := some () } env
  | some _ => captureAfterInit st env

/-- The JSON payload `post_content` sends to the content server. -/
structure Payload where
  image : String
  description : String
  deviceid : String
deriving DecidableEq

/-- Outcome of one button callback: the globals afterwards, the payload
handed to `requests.post` (when the callback reached the post), the number
of local `analyze_image` invocations, and whether an exception escaped the
callback. -/
structure CallbackOutcome where
  state : DeviceState
  posted : Option Payload
  analyzeCalls : Nat
  escaped : Bool
deriving DecidableEq

/-- `captureImageOpenai` (`cam4.py` lines 414-436): the capture call sits
outside any `try`, so a capture exception escapes the callback; inside the
`try` the local `analyze_image` call is commented out, the description is
the empty string and `post_content` posts
`{image, description, deviceid: devId}`; a raise inside the `try` is
swallowed and resets `picam2` to `None`. -/
def captureImageOpenai (st : DeviceState) (env : CaptureEnv)
    (postResult : Except Unit Unit) : CallbackOutcome :=
  match capture_image_and_save_to_base64 st env with
  | (st1, Except.error _) => ⟨st1, none, 0, true⟩
  | (st1, Except.ok image_base64) =>
      match postResult with
      | Except.ok _ => ⟨st1, some ⟨image_base64, "", st1.devId⟩, 0, false⟩
      | Except.error _ =>
          ⟨{ st1 with picam2 := none }, some ⟨image_base64, "", st1.devId⟩, 0, false⟩

/-- `captureImageGoogle` (`cam4.py` lines 442-458): same shape — capture
outside the `try`, then `analyze_image_google` and `post_content` inside
it, any raise there being swallowed with `picam2` reset to `None`. -/
def captureImageGoogle (st : DeviceState) (env : CaptureEnv)
    (googleResult : Except Unit String) (postResult : Except Unit Unit) :
    CallbackOutcome :=
  match capture_image_and_save_to_base64 st env with
  | (st1, Except.error _) => ⟨st1, none, 0, true⟩
  | (st1, Except.ok image_base64) =>
      match googleResult with
      | Except.error _ => ⟨{ st1 with picam2 := none }, none, 0, false⟩
      | Except.ok description =>
          match postResult with
          | Except.ok _ => ⟨st1, some ⟨image_base64, description, st1.devId⟩, 0, false⟩
          | Except.error _ =>
              ⟨{ st1 with picam2 := none }, some ⟨image_base64, description, st1.devId⟩, 0, false⟩

/-- C5 counterexample: with a cached camera handle and a capture that
raises inside `capture_image_and_save_to_base64`, the exception escapes
`captureImageOpenai` (the capture call sits outside the `try`), and the
cached handle is left in place rather than reset to `None`. -/
theorem capture_exception_escapes_cex :
    captureImageOpenai ⟨some (), 1, "10.0.0.9", "10.0.0.9"⟩
        ⟨[], Except.ok (), Except.error ()⟩ (Except.ok ())
      = ⟨⟨some (), 1, "10.0.0.9", "10.0.0.9"⟩, none, 0, true⟩
    ∧ (captureImageOpenai ⟨some (), 1, "10.0.0.9", "10.0.0.9"⟩
        ⟨[], Except.ok (), Except.error ()⟩ (Except.ok ())).escaped = true
    ∧ (captureImageOpenai ⟨some (), 1, "10.0.0.9", "10.0.0.9"⟩
        ⟨[], Except.ok (), Except.error ()⟩ (Except.ok ())).state.picam2 ≠ none := by
  exact ⟨rfl, rfl, by decide⟩

/-- C5 amended: only exceptions raised inside the `try` block (the
analysis/post step) are caught within the button callbacks, with the
camera handle reset to `None` and a normal return; an exception raised in
`capture_image_and_save_to_base64` itself (camera initialization or frame
capture) propagates out of both callbacks uncaught, with no post attempted
and the camera handle not reset. -/
theorem capture_exception_policy (st : DeviceState) (env : CaptureEnv)
    (googleResult : Except Unit String) (postResult : Except Unit Unit) :
    ((capture_image_and_save_to_base64 st env).2 = Except.error () →
        captureImageOpenai st env postResult
          = ⟨(capture_image_and_save_to_base64 st env).1, none, 0, true⟩
        ∧ captureImageGoogle st env googleResult postResult
          = ⟨(capture_image_and_save_to_base64 st env).1, none, 0, true⟩)
    ∧ (∀ img, (capture_image_and_save_to_base64 st env).2 = Except.ok img →
        postResult = Except.error () →
        (captureImageOpenai st env postResult).escaped = false
        ∧ (captureImageOpenai st env postResult).state.picam2 = none
        ∧ (captureImageGoogle st env googleResult postResult).escaped = false
        ∧ (captureImageGoogle st env googleResult postResult).state.picam2 = none) := by
  rcases hc : capture_image_and_save_to_base64 st env with ⟨st1, r⟩
  constructor
  · intro h
    have hr : r = Except.error () := h
    subst hr
    constructor <;> simp [captureImageOpenai, captureImageGoogle, hc]
  · intro img h hp
    have hr : r = Except.ok img := h
    subst hr
    subst hp
    refine ⟨?_, ?_, ?_, ?_⟩ <;>
      cases googleResult <;> simp [captureImageOpenai, captureImageGoogle, hc]

/-- C5 witness: the amended policy at concrete inputs — a raising capture
escapes the callback unchanged, and a raising post is swallowed with the
handle reset. -/
theorem capture_exception_policy_witness :
    captureImageOpenai ⟨some (), 1, "10.0.0.9", "10.0.0.9"⟩
        ⟨[], Except.ok (), Except.error ()⟩ (Except.error ())
      = ⟨⟨some (), 1, "10.0.0.9", "10.0.0.9"⟩, none, 0, true⟩
    ∧ (captureImageOpenai ⟨some (), 1, "10.0.0.9", "10.0.0.9"⟩
        ⟨[], Except.ok (), Except.ok "IMG"⟩ (Except.error ())).escaped = false
    ∧ (captureImageOpenai ⟨some (), 1, "10.0.0.9", "10.0.0.9"⟩
        ⟨[], Except.ok (), Except.ok "IMG"⟩ (Except.error ())).state.picam2 = none := by
  have h1 := (capture_exception_policy ⟨some (), 1, "10.0.0.9", "10.0.0.9"⟩
    ⟨[], Except.ok (), Except.error ()⟩ (Except.ok "g") (Except.error ())).1 rfl
  have h2 := (capture_exception_policy ⟨some (), 1, "10.0.0.9", "10.0.0.9"⟩
    ⟨[], Except.ok (), Except.ok "IMG"⟩ (Except.ok "g") (Except.error ())).2 "IMG" rfl rfl
  exact ⟨h1.1, h2.1, h2.2.1⟩

/-- C9: the OpenAI-button callback never invokes the local `analyze_image`
function (that call is commented out in the source), and every payload it
posts carries the empty string as its description — description generation
for these captures is always left to the server. -/
theorem captureImageOpenai_posts_empty_description (st : DeviceState)
    (env : CaptureEnv) (postResult : Except Unit Unit) :
    (captureImageOpenai st env postResult).analyzeCalls = 0
    ∧ (∀ p, (captureImageOpenai st env postResult).posted = some p →
        p.description = "") := by
  rcases hc : capture_image_and_save_to_base64 st env with ⟨st1, r⟩
  cases r with
  | error e => simp [captureImageOpenai, hc]
  | ok img =>
      cases postResult <;> constructor <;>
        simp only [captureImageOpenai, hc] <;>
        intro p hp <;> cases hp <;> rfl

/-- C9 witness: a concrete successful OpenAI-button capture posts the
payload with the empty description and makes no local analysis call. -/
theorem captureImageOpenai_posts_empty_description_witness :
    (captureImageOpenai ⟨some (), 1, "10.0.0.9", "10.0.0.9"⟩
        ⟨[], Except.ok (), Except.ok "IMG"⟩ (Except.ok ())).analyzeCalls = 0
    ∧ (Payload.mk "IMG" "" "10.0.0.9").description = "" := by
  have h := captureImageOpenai_posts_empty_description
    ⟨some (), 1, "10.0.0.9", "10.0.0.9"⟩ ⟨[], Except.ok (), Except.ok "IMG"⟩ (Except.ok ())
  exact ⟨h.1, h.2 ⟨"IMG", "", "10.0.0.9"⟩ rfl⟩

/-- C10: the first capture of the process runs `getIP`, which overwrites
the configured default device id with the detected IP unconditionally;
when no `wlan0` route with a truthy `prefsrc` exists the detected IP is the
initial `""`, so the device id becomes the empty string, the first upload
carries `deviceid = ""`, and so does every later upload — `firstTime` is
now set, so the id is never re-resolved, whatever the routing table looks
like afterwards. -/
theorem first_capture_overwrites_devId (default_device_id img img2 : String)
    (routes routes2 : List Route) (initResult2 : Except Unit Unit)
    (hnone : ∀ r ∈ routes, routeMatches r = false) :
    (captureImageOpenai (initialDeviceState default_device_id)
        ⟨routes, Except.ok (), Except.ok img⟩ (Except.ok ())).state.devId
      = getIP routes ""
    ∧ (captureImageOpenai (initialDeviceState default_device_id)
        ⟨routes, Except.ok (), Except.ok img⟩ (Except.ok ())).state.devId = ""
    ∧ (captureImageOpenai (initialDeviceState default_device_id)
        ⟨routes, Except.ok (), Except.ok img⟩ (Except.ok ())).posted
      = some ⟨img, "", ""⟩
    ∧ (captureImageOpenai
        (captureImageOpenai (initialDeviceState default_device_id)
          ⟨routes, Except.ok (), Except.ok img⟩ (Except.ok ())).state
        ⟨routes2, initResult2, Except.ok img2⟩ (Except.ok ())).posted
      = some ⟨img2, "", ""⟩ := by
  have hip : getIP routes "" = "" := getIP_no_match routes "" hnone
  refine ⟨?_, ?_, ?_, ?_⟩ <;>
    simp [captureImageOpenai, capture_image_and_save_to_base64, captureAfterInit,
      initialDeviceState, hip]

/-- C10 witness: with a routing table holding only a non-wlan0 route, the
configured default id `"DEV1"` is overwritten by `""` on the first capture,
and a second capture still posts `deviceid = ""` even though the routing
table now has a matching `wlan0` route. -/
theorem first_capture_overwrites_devId_witness :
    (captureImageOpenai (initialDeviceState "DEV1")
        ⟨[⟨"eth0", some "192.168.1.7"⟩], Except.ok (), Except.ok "IMG"⟩
        (Except.ok ())).state.devId = ""
    ∧ (captureImageOpenai
        (captureImageOpenai (initialDeviceState "DEV1")
          ⟨[⟨"eth0", some "192.168.1.7"⟩], Except.ok (), Except.ok "IMG"⟩
          (Except.ok ())).state
        ⟨[⟨"wlan0", some "10.1.1.1"⟩], Except.ok (), Except.ok "IMG2"⟩
        (Except.ok ())).posted = some ⟨"IMG2", "", ""⟩ := by
  have h := first_capture_overwrites_devId "DEV1" "IMG" "IMG2"
    [⟨"eth0", some "192.168.1.7"⟩] [⟨"wlan0", some "10.1.1.1"⟩] (Except.ok ())
    (by decide)
  exact ⟨h.2.1, h.2.2.2⟩

end Mnemosyne
